import Mathlib

/-!
Shallow embedding of the SimpleGlobe interactive-globe component:
the confidence→color gradient, the pin factory, the orientation
controller (lock/unlock effect, rotate-to-marker, per-frame rotation
smoothing), the pointer-down handler and the marker-hover raycast
resolution. JavaScript numbers are modelled as exact rationals and
`Math.PI` as the exact rational value of the IEEE-754 double that
JavaScript evaluates it to.
-/

namespace Arcki

/-- The `Location` marker record: `lat`/`long` in degrees, optional label,
optional color override and optional confidence score (0–100). -/
structure Location where
  lat : ℚ
  long : ℚ
  label : Option String := none
  color : Option String := none
  confidence : Option ℚ := none
deriving Repr, DecidableEq

instance : Inhabited Location := ⟨{ lat := 0, long := 0 }⟩

/-- Camera-distance constant for the unlocked / zoomed-out state (`ZOOM_OUT = 4.5`). -/
def ZOOM_OUT : ℚ := 9/2

/-- Camera-distance constant for the locked / zoomed-in state (`ZOOM_IN = 2.5`). -/
def ZOOM_IN : ℚ := 5/2

/-- The exact rational value of the IEEE-754 double `Math.PI`. -/
def mathPI : ℚ := 884279719003555 / 281474976710656

/-- JavaScript's `Math.round`: round half toward positive infinity. -/
def jsRound (x : ℚ) : ℤ := ⌊x + 1/2⌋

/-- Builds the CSS color string `rgb(r, g, b)`. -/
def rgbString (r g b : ℤ) : String :=
  "rgb(" ++ toString r ++ ", " ++ toString g ++ ", " ++ toString b ++ ")"

/-- `getConfidenceColor`: clamps confidence to [0,100] and interpolates
blue → cyan for the first half and cyan → green for the second half. -/
def getConfidenceColor (confidence : ℚ) : String :=
  let conf := max 0 (min 100 confidence)
  let t := conf / 100
  if t < 1/2 then
    let localT := t * 2
    rgbString (jsRound (50 + ((0:ℚ) - 50) * localT))
      (jsRound (100 + ((200:ℚ) - 100) * localT))
      (jsRound (255 + ((200:ℚ) - 255) * localT))
  else
    let localT := (t - 1/2) * 2
    rgbString (jsRound (0 + ((50:ℚ) - 0) * localT))
      (jsRound (200 + ((255:ℚ) - 200) * localT))
      (jsRound (200 + ((100:ℚ) - 200) * localT))

/-- The pin height-scale formula of `createPinGeometry`:
`0.5 + (confidence / 100) * 1.5` (no clamping is applied here). -/
def heightScale (confidence : ℚ) : ℚ :=
  1/2 + confidence / 100 * (3/2)

/-- Models the JavaScript default `marker.confidence || 50`: an absent
confidence or the falsy value `0` is replaced by 50. -/
def confOrDefault : Option ℚ → ℚ
  | none => 50
  | some v => if v = 0 then 50 else v

/-- Height scale of the pin actually built for a marker:
`createPinGeometry(marker.confidence || 50)`. -/
def markerHeightScale (marker : Location) : ℚ :=
  heightScale (confOrDefault marker.confidence)

/-- Color of the pin actually built for a marker: red when it is the
locked target, otherwise `marker.color || getConfidenceColor(marker.confidence || 50)`
(an absent or empty color string is falsy). -/
def markerColorOf (isTargetMarker : Bool) (marker : Location) : String :=
  if isTargetMarker then "#ff0000"
  else
    match marker.color with
    | some c => if c = "" then getConfidenceColor (confOrDefault marker.confidence) else c
    | none => getConfidenceColor (confOrDefault marker.confidence)

/-- The mutable `animationRef.current` record. -/
structure AnimationRef where
  targetRotationY : ℚ
  targetRotationX : ℚ
  isAnimating : Bool
  targetCameraZ : ℚ
deriving Repr, DecidableEq

/-- The animation state together with the globe group's current rotation
(`globeYRotationGroup.rotation.y` / `.x`). -/
structure GlobeState where
  anim : AnimationRef
  rotationY : ℚ
  rotationX : ℚ
deriving Repr, DecidableEq

/-- The `useEffect([isLocked])` body: unlocking stops any ongoing
animation and zooms out; locking zooms in. Rotation fields are untouched. -/
def isLockedEffect (isLocked : Bool) (s : GlobeState) : GlobeState :=
  if !isLocked then
    { s with anim := { s.anim with isAnimating := false, targetCameraZ := ZOOM_OUT } }
  else
    { s with anim := { s.anim with targetCameraZ := ZOOM_IN } }

/-- `rotateToMarker`: guards against an out-of-range index, then sets the
rotation targets from the marker's coordinates with an 80° yaw offset and
starts the animation. -/
def rotateToMarker (markers : List Location) (markerIndex : ℤ) (a : AnimationRef) : AnimationRef :=
  if markerIndex < 0 ∨ (markers.length : ℤ) ≤ markerIndex then a
  else
    let marker := markers.getD markerIndex.toNat default
    let offsetDegreesY : ℚ := 80
    let targetY := -(marker.long * mathPI / 180) + offsetDegreesY * mathPI / 180
    let targetX := marker.lat * mathPI / 180
    { a with targetRotationY := targetY, targetRotationX := targetX, isAnimating := true }

/-- The `useEffect([targetMarkerIndex, isLocked, markers.length])` body:
only when locked and the index is in range does it call `rotateToMarker`. -/
def targetMarkerEffect (isLocked : Bool) (markers : List Location)
    (targetMarkerIndex : ℤ) (a : AnimationRef) : AnimationRef :=
  if !isLocked then a
  else if 0 < markers.length ∧ 0 ≤ targetMarkerIndex ∧ targetMarkerIndex < (markers.length : ℤ) then
    rotateToMarker markers targetMarkerIndex a
  else a

/-- The rotation portion of one `animate()` frame: while locked, animating
and not dragging, lerp both rotation axes toward their targets with factor
0.05 and clear `isAnimating` once both deltas are below 0.001; while
unlocked, not dragging and not animating, apply the passive spin. -/
def frameRotationStep (isLocked isDragging : Bool) (s : GlobeState) : GlobeState :=
  if isLocked && s.anim.isAnimating && !isDragging then
    let lerpFactor : ℚ := 1/20
    let deltaY := s.anim.targetRotationY - s.rotationY
    let deltaX := s.anim.targetRotationX - s.rotationX
    let newAnimating : Bool := if |deltaY| < 1/1000 ∧ |deltaX| < 1/1000 then false else s.anim.isAnimating
    { s with
      rotationY := s.rotationY + deltaY * lerpFactor
      rotationX := s.rotationX + deltaX * lerpFactor
      anim := { s.anim with isAnimating := newAnimating } }
  else if !isLocked && !isDragging && !s.anim.isAnimating then
    { s with rotationY := s.rotationY + 1/1000 }
  else s

/-- One locked, non-dragging animation frame. -/
def lockedStep (s : GlobeState) : GlobeState := frameRotationStep true false s

/-- The state right after a lock starts: fresh targets, `isAnimating = true`,
current rotation wherever it was. -/
def lockStart (tY tX z rY rX : ℚ) : GlobeState :=
  { anim := { targetRotationY := tY, targetRotationX := tX, isAnimating := true,
              targetCameraZ := z },
    rotationY := rY, rotationX := rX }

/-- The globe state right after `rotateToMarker` fires while the current
rotation sits at `(rY, rX)`. -/
def lockedFrom (markers : List Location) (i : ℤ) (a : AnimationRef) (rY rX : ℚ) : GlobeState :=
  { anim := rotateToMarker markers i a, rotationY := rY, rotationX := rX }

/-- Identities of the objects in the marker scene subtree: the marker
group, one group per pin, and the head/stem meshes inside each pin. -/
inductive ObjId where
  | markerGroupId : ObjId
  | pinGroup (i : ℕ) : ObjId
  | pinMesh (i : ℕ) (isHead : Bool) : ObjId
deriving Repr, DecidableEq

/-- `obj.parent` in the marker subtree: meshes sit inside their pin group,
pin groups inside the marker group. -/
def parentOf : ObjId → Option ObjId
  | ObjId.markerGroupId => none
  | ObjId.pinGroup _ => some ObjId.markerGroupId
  | ObjId.pinMesh i _ => some (ObjId.pinGroup i)

/-- The `while (obj.parent && obj.parent !== markerGroup)` walk of
`handleRaycast`, with fuel bounding the (finite) scene depth. -/
def walkUp : ℕ → ObjId → ObjId
  | 0, o => o
  | fuel + 1, o =>
    match parentOf o with
    | none => o
    | some p => if p = ObjId.markerGroupId then o else walkUp fuel p

/-- Resolves a hit primitive to its owning pin group (scene depth ≤ 4). -/
def walkUpToOwner (o : ObjId) : ObjId := walkUp 4 o

/-- A visual scale mutation `object.scale.setScalar(s)`. -/
inductive ScaleAction where
  | setScalar (o : ObjId) (s : ℚ)
deriving Repr, DecidableEq

/-- The marker-hover portion of `handleRaycast`: gated on a non-empty mesh
list; resolves the first intersected primitive to its pin group, resets the
scale of a previously hovered pin that differs, and scales the newly
hovered pin by 1.2. Returns the new `hoveredMarker` and the scale actions. -/
def handleMarkerHover (markerMeshes markerIntersects : List ObjId)
    (hoveredMarker : Option ObjId) : Option ObjId × List ScaleAction :=
  if 0 < markerMeshes.length then
    let hoveredPinGroup : Option ObjId :=
      match markerIntersects with
      | [] => none
      | m :: _ => some (walkUpToOwner m)
    let reset : Option ObjId × List ScaleAction :=
      match hoveredMarker with
      | some h =>
        if some h ≠ hoveredPinGroup then (none, [ScaleAction.setScalar h 1])
        else (some h, [])
      | none => (none, [])
    match hoveredPinGroup with
    | some p =>
      if some p ≠ reset.1 then (some p, reset.2 ++ [ScaleAction.setScalar p (6/5)])
      else (reset.1, reset.2)
    | none => (reset.1, reset.2)
  else (hoveredMarker, [])

/-- A node of the marker subtree with its owned graphics resources:
a mesh owns a geometry id and a material id; a group owns nothing itself. -/
inductive SceneNode where
  | group (children : List SceneNode) : SceneNode
  | mesh (geomId matId : ℕ) : SceneNode
deriving Repr

/-- The pin factory of the `useEffect([markers])` body: one group per
marker holding a head mesh and a stem mesh which share one material.
Geometry ids `2*i`, `2*i+1` and material id `i` identify the resources
allocated for marker `i`. -/
def buildMarkerPins (markers : List Location) : List SceneNode :=
  (List.range markers.length).map fun i =>
    SceneNode.group [SceneNode.mesh (2*i) i, SceneNode.mesh (2*i+1) i]

/-- The geometry ids allocated for a marker list. -/
def allocatedGeometries (markers : List Location) : List ℕ :=
  (List.range markers.length).flatMap fun i => [2*i, 2*i+1]

/-- Resource release for one removed child of `markerGroup`: only a direct
`Mesh` child has its geometry and material disposed; a `Group` child is
removed without touching the resources inside it. -/
def disposeChild : SceneNode → List ℕ × List ℕ
  | SceneNode.mesh g m => ([g], [m])
  | SceneNode.group _ => ([], [])

/-- The `while (markerGroup.children.length > 0)` clearing loop: removes
every child and returns the geometry and material ids actually disposed. -/
def clearMarkerGroup (children : List SceneNode) : List ℕ × List ℕ :=
  children.foldl
    (fun acc c => (acc.1 ++ (disposeChild c).1, acc.2 ++ (disposeChild c).2))
    ([], [])

/-- The meshes registered in `sceneRef.current.markerMeshes` for a marker
list (head and stem of every pin). -/
def markerMeshesOf (markers : List Location) : List ObjId :=
  (List.range markers.length).flatMap fun i =>
    [ObjId.pinMesh i true, ObjId.pinMesh i false]

/-- A callback notification to the component's collaborators. -/
inductive CallbackEvent where
  | lock : CallbackEvent
  | unlock : CallbackEvent
  | markerClick (idx : ℕ) : CallbackEvent
deriving Repr, DecidableEq

/-- Result of the `onMouseDown` handler: the callbacks fired, in order,
and the value of `isDragging` afterwards. -/
structure MouseDownResult where
  events : List CallbackEvent
  isDragging : Bool
deriving Repr, DecidableEq

/-- The `onMouseDown` handler: clicking a hovered pin fires `onLock` then
`onMarkerClick(index)` and returns before the drag begins; clicking empty
globe fires `onUnlock` when locked and starts a drag. -/
def onMouseDown (hoveredMarker : Option ℕ) (isLocked : Bool) : MouseDownResult :=
  match hoveredMarker with
  | some idx => { events := [CallbackEvent.lock, CallbackEvent.markerClick idx], isDragging := false }
  | none =>
    { events := if isLocked then [CallbackEvent.unlock] else [], isDragging := true }

/-! ## Helper lemmas -/

lemma clamp_idem (c : ℚ) : max 0 (min 100 (max 0 (min 100 c))) = max 0 (min 100 c) := by
  have h1 : max 0 (min 100 c) ≤ 100 := max_le (by norm_num) (min_le_left _ _)
  rw [min_eq_right h1, ← max_assoc, max_self]

lemma getConfidenceColor_clamp (c : ℚ) :
    getConfidenceColor (max 0 (min 100 c)) = getConfidenceColor c := by
  unfold getConfidenceColor
  rw [clamp_idem]

lemma rotateToMarker_in_range (markers : List Location) (i : ℤ) (a : AnimationRef)
    (h0 : 0 ≤ i) (h1 : i < (markers.length : ℤ)) :
    rotateToMarker markers i a =
      { a with
        targetRotationY :=
          -((markers.getD i.toNat default).long * mathPI / 180) + 80 * mathPI / 180
        targetRotationX := (markers.getD i.toNat default).lat * mathPI / 180
        isAnimating := true } := by
  have hg : ¬ (i < 0 ∨ (markers.length : ℤ) ≤ i) := by omega
  unfold rotateToMarker
  rw [if_neg hg]

lemma lockedStep_not_animating (s : GlobeState) (hs : s.anim.isAnimating = false) :
    lockedStep s = s := by
  unfold lockedStep frameRotationStep
  simp [hs]

lemma lockedStep_animating_fields (s : GlobeState) (hs : s.anim.isAnimating = true) :
    (lockedStep s).rotationY
        = s.rotationY + (s.anim.targetRotationY - s.rotationY) * (1/20) ∧
    (lockedStep s).rotationX
        = s.rotationX + (s.anim.targetRotationX - s.rotationX) * (1/20) ∧
    (lockedStep s).anim.targetRotationY = s.anim.targetRotationY ∧
    (lockedStep s).anim.targetRotationX = s.anim.targetRotationX ∧
    ((lockedStep s).anim.isAnimating = false ↔
      (|s.anim.targetRotationY - s.rotationY| < 1/1000 ∧
       |s.anim.targetRotationX - s.rotationX| < 1/1000)) := by
  obtain ⟨⟨tY, tX, ia, z⟩, rY, rX⟩ := s
  dsimp only at hs ⊢
  subst hs
  refine ⟨by simp [lockedStep, frameRotationStep],
    by simp [lockedStep, frameRotationStep],
    by simp [lockedStep, frameRotationStep],
    by simp [lockedStep, frameRotationStep], ?_⟩
  by_cases hc : |tY - rY| < 1/1000 ∧ |tX - rX| < 1/1000
  · simp [lockedStep, frameRotationStep, hc]
  · simp [lockedStep, frameRotationStep, hc]

lemma lockedStep_anim_of_animating (s : GlobeState)
    (h : (lockedStep s).anim.isAnimating = true) : s.anim.isAnimating = true := by
  cases hb : s.anim.isAnimating
  · rw [lockedStep_not_animating s hb] at h
    rw [hb] at h
    exact h
  · rfl

lemma lockedStep_iterate_spec (tY tX z rY rX : ℚ) (n : ℕ) :
    ((lockedStep^[n] (lockStart tY tX z rY rX)).anim.targetRotationY = tY ∧
     (lockedStep^[n] (lockStart tY tX z rY rX)).anim.targetRotationX = tX) ∧
    ((lockedStep^[n] (lockStart tY tX z rY rX)).anim.isAnimating = true →
      tY - (lockedStep^[n] (lockStart tY tX z rY rX)).rotationY = (tY - rY) * (19/20)^n ∧
      tX - (lockedStep^[n] (lockStart tY tX z rY rX)).rotationX = (tX - rX) * (19/20)^n) ∧
    ((lockedStep^[n] (lockStart tY tX z rY rX)).anim.isAnimating = false →
      |tY - (lockedStep^[n] (lockStart tY tX z rY rX)).rotationY| < 1/1000 ∧
      |tX - (lockedStep^[n] (lockStart tY tX z rY rX)).rotationX| < 1/1000) := by
  induction n with
  | zero =>
    simp only [Function.iterate_zero_apply]
    refine ⟨⟨rfl, rfl⟩, fun _ => ⟨by simp [lockStart], by simp [lockStart]⟩,
      fun hfalse => ?_⟩
    simp [lockStart] at hfalse
  | succ n ih =>
    obtain ⟨⟨ihTY, ihTX⟩, ihA, ihB⟩ := ih
    rw [Function.iterate_succ_apply']
    cases hb : (lockedStep^[n] (lockStart tY tX z rY rX)).anim.isAnimating with
    | false =>
      rw [lockedStep_not_animating _ hb]
      exact ⟨⟨ihTY, ihTX⟩, fun h => absurd h (by simp [hb]), fun _ => ihB hb⟩
    | true =>
      obtain ⟨hrY', hrX', htY', htX', hiff⟩ := lockedStep_animating_fields _ hb
      obtain ⟨hAY, hAX⟩ := ihA hb
      refine ⟨⟨htY'.trans ihTY, htX'.trans ihTX⟩, fun _ => ⟨?_, ?_⟩, fun hfalse => ?_⟩
      · rw [hrY', ihTY]
        linear_combination ((19:ℚ)/20) * hAY
      · rw [hrX', ihTX]
        linear_combination ((19:ℚ)/20) * hAX
      · have hcond := hiff.mp hfalse
        rw [ihTY, ihTX] at hcond
        constructor
        · rw [hrY', ihTY]
          have heq : tY - ((lockedStep^[n] (lockStart tY tX z rY rX)).rotationY
              + (tY - (lockedStep^[n] (lockStart tY tX z rY rX)).rotationY) * (1/20))
              = (tY - (lockedStep^[n] (lockStart tY tX z rY rX)).rotationY) * (19/20) := by
            ring
          rw [heq, abs_mul, abs_of_pos (show (0:ℚ) < 19/20 by norm_num)]
          have hle := mul_le_of_le_one_right
            (abs_nonneg (tY - (lockedStep^[n] (lockStart tY tX z rY rX)).rotationY))
            (show ((19:ℚ)/20) ≤ 1 by norm_num)
          exact lt_of_le_of_lt hle hcond.1
        · rw [hrX', ihTX]
          have heq : tX - ((lockedStep^[n] (lockStart tY tX z rY rX)).rotationX
              + (tX - (lockedStep^[n] (lockStart tY tX z rY rX)).rotationX) * (1/20))
              = (tX - (lockedStep^[n] (lockStart tY tX z rY rX)).rotationX) * (19/20) := by
            ring
          rw [heq, abs_mul, abs_of_pos (show (0:ℚ) < 19/20 by norm_num)]
          have hle := mul_le_of_le_one_right
            (abs_nonneg (tX - (lockedStep^[n] (lockStart tY tX z rY rX)).rotationX))
            (show ((19:ℚ)/20) ≤ 1 by norm_num)
          exact lt_of_le_of_lt hle hcond.2

lemma twenty_mul_pow_199_lt : (20:ℚ) * (19/20)^199 < 1/1000 := by
  norm_num

/-! ## Claim theorems -/

/-- C2: transitioning from locked to unlocked immediately clears
`isAnimating`, sets `targetCameraZ` to the zoomed-out constant, and leaves
the rotation targets and the current rotation unchanged. -/
theorem unlock_clears_animation_and_zooms_out (s : GlobeState) :
    (isLockedEffect false s).anim.isAnimating = false ∧
    (isLockedEffect false s).anim.targetCameraZ = ZOOM_OUT ∧
    (isLockedEffect false s).anim.targetRotationY = s.anim.targetRotationY ∧
    (isLockedEffect false s).anim.targetRotationX = s.anim.targetRotationX ∧
    (isLockedEffect false s).rotationY = s.rotationY ∧
    (isLockedEffect false s).rotationX = s.rotationX :=
  ⟨rfl, rfl, rfl, rfl, rfl, rfl⟩

/-- C3 counterexample: the claim that every marker's built pin has height
scale `0.5 + (confidence/100) * 1.5` fails at confidence exactly 0, where
the `|| 50` default yields 1.25 instead of 0.5. -/
theorem pin_height_formula_counterexample :
    ¬ (∀ (m : Location) (c : ℚ), m.confidence = some c →
        markerHeightScale m = 1/2 + c / 100 * (3/2)) := by
  intro h
  have h0 := h { lat := 0, long := 0, confidence := some 0 } 0 rfl
  norm_num [markerHeightScale, confOrDefault, heightScale] at h0

/-- C3 amended: for every marker with a nonzero confidence the built pin's
height scale equals `0.5 + (confidence/100) * 1.5`; the scale function maps
0, 50, 100 to 0.5, 1.25, 2 and is linear and strictly increasing; a marker
with confidence exactly 0 is built with the default scale of confidence 50. -/
theorem pin_height_scale_amended :
    (∀ (m : Location) (c : ℚ), m.confidence = some c → c ≠ 0 →
        markerHeightScale m = 1/2 + c / 100 * (3/2)) ∧
    heightScale 0 = 1/2 ∧ heightScale 50 = 5/4 ∧ heightScale 100 = 2 ∧
    markerHeightScale { lat := 0, long := 0, confidence := some 0 } = heightScale 50 ∧
    StrictMono heightScale := by
  refine ⟨?_, by norm_num [heightScale], by norm_num [heightScale],
    by norm_num [heightScale], ?_, ?_⟩
  · intro m c hc hne
    simp [markerHeightScale, confOrDefault, hc, hne, heightScale]
  · norm_num [markerHeightScale, confOrDefault, heightScale]
  · intro a b hab
    simp only [heightScale]
    linarith

/-- Witness for the amended C3 at a concrete marker of confidence 80. -/
theorem pin_height_scale_amended_witness :
    markerHeightScale { lat := 0, long := 0, confidence := some 80 } = 1/2 + 80 / 100 * (3/2) :=
  pin_height_scale_amended.1 { lat := 0, long := 0, confidence := some 80 } 80 rfl (by norm_num)

/-- C4 counterexample: confidence is not clamped everywhere it is
consumed — the pin height scale at confidence 200 differs from the height
scale at the clamped value 100. -/
theorem confidence_clamp_counterexample :
    ¬ (∀ c : ℚ, heightScale c = heightScale (max 0 (min 100 c))) := by
  intro h
  have h200 := h 200
  norm_num [heightScale, min_def, max_def] at h200

/-- C4 amended: the gradient color clamps confidence to [0,100] before
use, but the pin height scale uses the raw value (values 200 and −100 give
scales 3.5 and −1, outside the documented [0.5, 2] range); no confidence
value is rejected (both functions are total). -/
theorem confidence_clamped_for_color_not_height :
    (∀ c : ℚ, getConfidenceColor c = getConfidenceColor (max 0 (min 100 c))) ∧
    heightScale 200 = 7/2 ∧ heightScale (-100) = -1 ∧
    heightScale 100 = 2 ∧ heightScale 0 = 1/2 := by
  refine ⟨fun c => (getConfidenceColor_clamp c).symm, ?_, ?_, ?_, ?_⟩ <;>
    norm_num [heightScale]

/-- C5: locking onto an in-range marker index sets
`targetRotationY = -(long · π/180) + 80 · π/180` and
`targetRotationX = lat · π/180` and sets `isAnimating` to true. -/
theorem lock_sets_orientation_targets (markers : List Location) (i : ℤ) (a : AnimationRef)
    (h0 : 0 ≤ i) (h1 : i < (markers.length : ℤ)) :
    (rotateToMarker markers i a).targetRotationY
        = -((markers.getD i.toNat default).long * mathPI / 180) + 80 * mathPI / 180 ∧
    (rotateToMarker markers i a).targetRotationX
        = (markers.getD i.toNat default).lat * mathPI / 180 ∧
    (rotateToMarker markers i a).isAnimating = true := by
  rw [rotateToMarker_in_range markers i a h0 h1]
  exact ⟨rfl, rfl, rfl⟩

/-- Witness for C5 at a concrete one-marker list. -/
theorem lock_sets_orientation_targets_witness :
    (rotateToMarker [{ lat := 40, long := -74 }] 0
        { targetRotationY := 0, targetRotationX := 0, isAnimating := false,
          targetCameraZ := 9/2 }).targetRotationY
        = -((([{ lat := 40, long := -74 }] : List Location).getD (0:ℤ).toNat default).long
            * mathPI / 180) + 80 * mathPI / 180 ∧
    (rotateToMarker [{ lat := 40, long := -74 }] 0
        { targetRotationY := 0, targetRotationX := 0, isAnimating := false,
          targetCameraZ := 9/2 }).targetRotationX
        = (([{ lat := 40, long := -74 }] : List Location).getD (0:ℤ).toNat default).lat
            * mathPI / 180 ∧
    (rotateToMarker [{ lat := 40, long := -74 }] 0
        { targetRotationY := 0, targetRotationX := 0, isAnimating := false,
          targetCameraZ := 9/2 }).isAnimating = true :=
  lock_sets_orientation_targets _ 0 _ (by decide) (by decide)

/-- C7: pointer-down on a hovered pin fires `onLock` then
`onMarkerClick(index)` and does not begin a drag; in particular `onLock`
fires when a pin is clicked while unlocked. -/
theorem pin_click_fires_lock_and_marker_click (idx : ℕ) (isLocked : Bool) :
    onMouseDown (some idx) isLocked =
      { events := [CallbackEvent.lock, CallbackEvent.markerClick idx], isDragging := false } ∧
    CallbackEvent.lock ∈ (onMouseDown (some idx) false).events :=
  ⟨rfl, by simp [onMouseDown]⟩

/-- C8: a hit on any primitive of a pin (head or stem) resolves, by
walking up the hierarchy, to the owning pin group; when the resolved pin
differs from the previously hovered one, the old pin's scale is reset to 1
and the new pin is scaled by 1.2; when nothing is hit, hover is cleared. -/
theorem pin_hover_resolution (meshes : List ObjId) (i j : ℕ) (b : Bool) (x : ObjId)
    (hm : meshes ≠ []) (hij : j ≠ i) :
    walkUpToOwner (ObjId.pinMesh i b) = ObjId.pinGroup i ∧
    handleMarkerHover meshes [ObjId.pinMesh i b] (some (ObjId.pinGroup j)) =
      (some (ObjId.pinGroup i),
        [ScaleAction.setScalar (ObjId.pinGroup j) 1,
         ScaleAction.setScalar (ObjId.pinGroup i) (6/5)]) ∧
    handleMarkerHover meshes [] (some x) = (none, [ScaleAction.setScalar x 1]) := by
  have hlen : 0 < meshes.length := List.length_pos.mpr hm
  have hres : walkUpToOwner (ObjId.pinMesh i b) = ObjId.pinGroup i := by
    simp [walkUpToOwner, walkUp, parentOf]
  refine ⟨hres, ?_, ?_⟩
  · simp [handleMarkerHover, hlen, hres, hij]
  · simp [handleMarkerHover, hlen]

/-- Witness for C8 at a concrete two-mesh scene. -/
theorem pin_hover_resolution_witness :
    walkUpToOwner (ObjId.pinMesh 0 true) = ObjId.pinGroup 0 ∧
    handleMarkerHover [ObjId.pinMesh 0 true, ObjId.pinMesh 0 false]
        [ObjId.pinMesh 0 true] (some (ObjId.pinGroup 1)) =
      (some (ObjId.pinGroup 0),
        [ScaleAction.setScalar (ObjId.pinGroup 1) 1,
         ScaleAction.setScalar (ObjId.pinGroup 0) (6/5)]) ∧
    handleMarkerHover [ObjId.pinMesh 0 true, ObjId.pinMesh 0 false] []
        (some (ObjId.pinGroup 7)) =
      (none, [ScaleAction.setScalar (ObjId.pinGroup 7) 1]) :=
  pin_hover_resolution _ 0 1 true (ObjId.pinGroup 7) (by decide) (by decide)

/-- C9: a lock request with an out-of-range index leaves the animation
state untouched, and an empty marker list builds no pins, registers no
meshes, and makes pin hit-testing a trivial miss. -/
theorem out_of_range_lock_is_noop (markers : List Location) (i : ℤ) (isLocked : Bool)
    (a : AnimationRef) (hov : Option ObjId)
    (h : i < 0 ∨ (markers.length : ℤ) ≤ i) :
    targetMarkerEffect isLocked markers i a = a ∧
    rotateToMarker markers i a = a ∧
    buildMarkerPins ([] : List Location) = [] ∧
    markerMeshesOf ([] : List Location) = [] ∧
    handleMarkerHover (markerMeshesOf ([] : List Location)) [] hov = (hov, []) := by
  have hg : ¬ (0 < markers.length ∧ 0 ≤ i ∧ i < (markers.length : ℤ)) := by omega
  refine ⟨?_, ?_, rfl, rfl, rfl⟩
  · unfold targetMarkerEffect
    cases isLocked with
    | false => rfl
    | true => simp [hg, rotateToMarker, h]
  · unfold rotateToMarker
    rw [if_pos h]

/-- Witness for C9 at index 5 against an empty marker list. -/
theorem out_of_range_lock_is_noop_witness :
    targetMarkerEffect true [] 5
        { targetRotationY := 1, targetRotationX := 2, isAnimating := true, targetCameraZ := 5/2 }
      = { targetRotationY := 1, targetRotationX := 2, isAnimating := true, targetCameraZ := 5/2 } ∧
    rotateToMarker [] 5
        { targetRotationY := 1, targetRotationX := 2, isAnimating := true, targetCameraZ := 5/2 }
      = { targetRotationY := 1, targetRotationX := 2, isAnimating := true, targetCameraZ := 5/2 } ∧
    buildMarkerPins ([] : List Location) = [] ∧
    markerMeshesOf ([] : List Location) = [] ∧
    handleMarkerHover (markerMeshesOf ([] : List Location)) [] (some ObjId.markerGroupId)
      = (some ObjId.markerGroupId, []) :=
  out_of_range_lock_is_noop [] 5 true _ (some ObjId.markerGroupId) (by decide)

/-- C10: a marker with confidence exactly 0 renders identically to one
with confidence omitted — both get the default-50 height scale 1.25 (not
the formula value 0.5) and the default-50 gradient color. -/
theorem zero_confidence_renders_as_default :
    markerHeightScale { lat := 10, long := 20, confidence := some 0 }
        = markerHeightScale { lat := 10, long := 20 } ∧
    markerHeightScale { lat := 10, long := 20, confidence := some 0 } = 5/4 ∧
    markerHeightScale { lat := 10, long := 20, confidence := some 0 } ≠ heightScale 0 ∧
    markerColorOf false { lat := 10, long := 20, confidence := some 0 }
        = markerColorOf false { lat := 10, long := 20 } ∧
    markerColorOf false { lat := 10, long := 20, confidence := some 0 }
        = getConfidenceColor 50 := by
  refine ⟨?_, ?_, ?_, ?_, ?_⟩ <;>
    norm_num [markerHeightScale, confOrDefault, heightScale, markerColorOf]

/-- C1: while locked, animating and not dragging, each frame moves both
rotation axes by `(target − current) * 0.05`, and `isAnimating` is cleared
exactly when both axis deltas are below 0.001 rad; consequently, locking
onto a marker (coordinates in range, current rotation bounded by 15 rad)
and stepping 200 frames leaves the rotation within 0.01 rad of the target
on both axes with `isAnimating` false. -/
theorem locked_rotation_convergence (markers : List Location) (i : ℤ) (a : AnimationRef)
    (rY rX : ℚ)
    (h0 : 0 ≤ i) (h1 : i < (markers.length : ℤ))
    (hlat : |(markers.getD i.toNat default).lat| ≤ 90)
    (hlong : |(markers.getD i.toNat default).long| ≤ 180)
    (hrY : |rY| ≤ 15) (hrX : |rX| ≤ 15) :
    (∀ s : GlobeState, s.anim.isAnimating = true →
        (frameRotationStep true false s).rotationY
            = s.rotationY + (s.anim.targetRotationY - s.rotationY) * (1/20) ∧
        (frameRotationStep true false s).rotationX
            = s.rotationX + (s.anim.targetRotationX - s.rotationX) * (1/20) ∧
        ((frameRotationStep true false s).anim.isAnimating = false ↔
          (|s.anim.targetRotationY - s.rotationY| < 1/1000 ∧
           |s.anim.targetRotationX - s.rotationX| < 1/1000))) ∧
    (rotateToMarker markers i a).isAnimating = true ∧
    (|(lockedStep^[200] (lockedFrom markers i a rY rX)).anim.targetRotationY
        - (lockedStep^[200] (lockedFrom markers i a rY rX)).rotationY| < 1/100 ∧
     |(lockedStep^[200] (lockedFrom markers i a rY rX)).anim.targetRotationX
        - (lockedStep^[200] (lockedFrom markers i a rY rX)).rotationX| < 1/100 ∧
     (lockedStep^[200] (lockedFrom markers i a rY rX)).anim.isAnimating = false) := by
  have hstep : ∀ s : GlobeState, s.anim.isAnimating = true →
      (frameRotationStep true false s).rotationY
          = s.rotationY + (s.anim.targetRotationY - s.rotationY) * (1/20) ∧
      (frameRotationStep true false s).rotationX
          = s.rotationX + (s.anim.targetRotationX - s.rotationX) * (1/20) ∧
      ((frameRotationStep true false s).anim.isAnimating = false ↔
        (|s.anim.targetRotationY - s.rotationY| < 1/1000 ∧
         |s.anim.targetRotationX - s.rotationX| < 1/1000)) := by
    intro s hs
    obtain ⟨e1, e2, _, _, e5⟩ := lockedStep_animating_fields s hs
    exact ⟨e1, e2, e5⟩
  have hrot := rotateToMarker_in_range markers i a h0 h1
  set m := markers.getD i.toNat default with hm
  set tY : ℚ := -(m.long * mathPI / 180) + 80 * mathPI / 180 with htY
  set tX : ℚ := m.lat * mathPI / 180 with htX
  have hstate : lockedFrom markers i a rY rX = lockStart tY tX a.targetCameraZ rY rX := by
    unfold lockedFrom
    rw [hrot]
    rfl
  have hpi_pos : (0:ℚ) < mathPI := by norm_num [mathPI]
  have hpi_le : mathPI ≤ 16/5 := by norm_num [mathPI]
  rw [abs_le] at hlat hlong hrY hrX
  have hLp1 : (-180) * mathPI ≤ m.long * mathPI :=
    mul_le_mul_of_nonneg_right hlong.1 hpi_pos.le
  have hLp2 : m.long * mathPI ≤ 180 * mathPI :=
    mul_le_mul_of_nonneg_right hlong.2 hpi_pos.le
  have hTp1 : (-90) * mathPI ≤ m.lat * mathPI :=
    mul_le_mul_of_nonneg_right hlat.1 hpi_pos.le
  have hTp2 : m.lat * mathPI ≤ 90 * mathPI :=
    mul_le_mul_of_nonneg_right hlat.2 hpi_pos.le
  have hdY : |tY - rY| ≤ 20 := by
    rw [abs_le, htY]
    constructor <;> linarith
  have hdX : |tX - rX| ≤ 20 := by
    rw [abs_le, htX]
    constructor <;> linarith
  have hq_pos : (0:ℚ) < (19/20)^199 := by positivity
  have h200 : lockedStep^[200] (lockStart tY tX a.targetCameraZ rY rX)
      = lockedStep (lockedStep^[199] (lockStart tY tX a.targetCameraZ rY rX)) := by
    rw [show (200:ℕ) = 199 + 1 from rfl, Function.iterate_succ_apply']
  have hfin : (lockedStep^[200] (lockStart tY tX a.targetCameraZ rY rX)).anim.isAnimating
      = false := by
    cases hb : (lockedStep^[200] (lockStart tY tX a.targetCameraZ rY rX)).anim.isAnimating
    · rfl
    · exfalso
      have hb199 : (lockedStep^[199] (lockStart tY tX a.targetCameraZ rY rX)).anim.isAnimating
          = true := by
        apply lockedStep_anim_of_animating
        rw [← h200]
        exact hb
      obtain ⟨hAY, hAX⟩ := (lockedStep_iterate_spec tY tX a.targetCameraZ rY rX 199).2.1 hb199
      obtain ⟨htg1, htg2⟩ := (lockedStep_iterate_spec tY tX a.targetCameraZ rY rX 199).1
      have hYb : |tY - (lockedStep^[199] (lockStart tY tX a.targetCameraZ rY rX)).rotationY|
          < 1/1000 := by
        rw [hAY, abs_mul, abs_of_pos hq_pos]
        calc |tY - rY| * (19/20)^199 ≤ 20 * (19/20)^199 :=
              mul_le_mul_of_nonneg_right hdY hq_pos.le
          _ < 1/1000 := twenty_mul_pow_199_lt
      have hXb : |tX - (lockedStep^[199] (lockStart tY tX a.targetCameraZ rY rX)).rotationX|
          < 1/1000 := by
        rw [hAX, abs_mul, abs_of_pos hq_pos]
        calc |tX - rX| * (19/20)^199 ≤ 20 * (19/20)^199 :=
              mul_le_mul_of_nonneg_right hdX hq_pos.le
          _ < 1/1000 := twenty_mul_pow_199_lt
      have hiff := (lockedStep_animating_fields _ hb199).2.2.2.2
      rw [htg1, htg2] at hiff
      have hcl : (lockedStep (lockedStep^[199] (lockStart tY tX a.targetCameraZ rY rX))).anim.isAnimating
          = false := hiff.mpr ⟨hYb, hXb⟩
      rw [← h200] at hcl
      rw [hcl] at hb
      exact Bool.noConfusion hb
  obtain ⟨hB1, hB2⟩ := (lockedStep_iterate_spec tY tX a.targetCameraZ rY rX 200).2.2 hfin
  obtain ⟨hT1, hT2⟩ := (lockedStep_iterate_spec tY tX a.targetCameraZ rY rX 200).1
  refine ⟨hstep, ?_, ?_, ?_, ?_⟩
  · rw [hrot]
  · rw [hstate, hT1]
    exact lt_trans hB1 (by norm_num)
  · rw [hstate, hT2]
    exact lt_trans hB2 (by norm_num)
  · rw [hstate]
    exact hfin

/-- Witness for C1: locking a single marker at (40° N, 74° W) from rotation
(0, 0) converges within 200 frames. -/
theorem locked_rotation_convergence_witness :
    |(lockedStep^[200] (lockedFrom [{ lat := 40, long := -74 }] 0
          { targetRotationY := 0, targetRotationX := 0, isAnimating := false,
            targetCameraZ := 9/2 } 0 0)).anim.targetRotationY
      - (lockedStep^[200] (lockedFrom [{ lat := 40, long := -74 }] 0
            { targetRotationY := 0, targetRotationX := 0, isAnimating := false,
              targetCameraZ := 9/2 } 0 0)).rotationY| < 1/100 ∧
    |(lockedStep^[200] (lockedFrom [{ lat := 40, long := -74 }] 0
          { targetRotationY := 0, targetRotationX := 0, isAnimating := false,
            targetCameraZ := 9/2 } 0 0)).anim.targetRotationX
      - (lockedStep^[200] (lockedFrom [{ lat := 40, long := -74 }] 0
            { targetRotationY := 0, targetRotationX := 0, isAnimating := false,
              targetCameraZ := 9/2 } 0 0)).rotationX| < 1/100 ∧
    (lockedStep^[200] (lockedFrom [{ lat := 40, long := -74 }] 0
        { targetRotationY := 0, targetRotationX := 0, isAnimating := false,
          targetCameraZ := 9/2 } 0 0)).anim.isAnimating = false :=
  (locked_rotation_convergence [{ lat := 40, long := -74 }] 0
    { targetRotationY := 0, targetRotationX := 0, isAnimating := false, targetCameraZ := 9/2 }
    0 0 (by decide) (by decide)
    (by norm_num [List.getD])
    (by norm_num [List.getD])
    (by norm_num) (by norm_num)).2.2

/-- C6: clearing the marker group before a rebuild disposes nothing — the
previous generation's pins are `Group` children whose head/stem meshes are
never reached by the `instanceof Mesh` dispose branch, so the geometries
and material allocated for them leak. -/
theorem marker_rebuild_never_disposes_pin_resources :
    clearMarkerGroup (buildMarkerPins [{ lat := 0, long := 0, confidence := some 75 }])
      = ([], []) ∧
    buildMarkerPins [{ lat := 0, long := 0, confidence := some 75 }]
      = [SceneNode.group [SceneNode.mesh 0 0, SceneNode.mesh 1 0]] ∧
    allocatedGeometries [{ lat := 0, long := 0, confidence := some 75 }] = [0, 1] :=
  ⟨rfl, rfl, rfl⟩

end Arcki
